import Mathlib

/-!
  Verification development for the device-flow authorization engine of
  `mcp_oauth_server`: the server-side provider (`GitHubServerAuthProvider`
  in `src/server`, with its device-code registry and session-token store)
  and the client-side polling loop
  (`HeadlessClientOAuthProvider.pollForAuthorization` in `src/client`).

  The TypeScript is embedded shallowly: each stateful method becomes a pure
  Lean function over an explicit state, with `Date.now()`, the provider's
  HTTP responses and the random fresh token values passed in as parameters.
  Times are milliseconds as `Nat`; JS `Map`s become association lists.
-/

/-- JavaScript `a || b` for an optional string: the fallback is used when
the value is absent or is the empty string (both are falsy). -/
def jsOr (a : Option String) (b : String) : String :=
  match a with
  | none => b
  | some s => if s = "" then b else s

/-- Lookup in a small association-list map (models JS `Map.get` /
`tokenStore` lookup). -/
def mapGet {α : Type} (m : List (String × α)) (k : String) : Option α :=
  (m.find? (fun p => p.1 == k)).map (fun p => p.2)

/-- Insert or replace a key (models JS `Map.set`). -/
def mapSet {α : Type} (m : List (String × α)) (k : String) (v : α) :
    List (String × α) :=
  (k, v) :: m.filter (fun p => p.1 != k)

/-- Remove a key (models JS `Map.delete`). -/
def mapDel {α : Type} (m : List (String × α)) (k : String) :
    List (String × α) :=
  m.filter (fun p => p.1 != k)

/-- One in-flight device authorization: the value type of the server's
`_deviceCodes` map. -/
structure DeviceCodeData where
  clientId : String
  githubDeviceCode : String
  userCode : String
  verificationUri : String
  expiresAt : Nat
  interval : Nat
  sessionToken : Option String
  deriving Repr, DecidableEq

/-- One stored session token. Modelled from the spec: the SessionTokenStore
entry (`TokenStore.ts` is not under `src/`); fields follow §3 SessionToken
and the `tokenStore` call sites in the provider. -/
structure StoredToken where
  githubToken : String
  clientCodeChallenge : String
  expiresAt : Nat
  clientId : String
  scopes : List String
  deriving Repr, DecidableEq

/-- The server authorization state the claims touch: the `_deviceCodes`
registry and the session-token store. -/
structure ServerState where
  deviceCodes : List (String × DeviceCodeData)
  tokens : List (String × StoredToken)
  deriving Repr, DecidableEq

/-- Modelled from the spec: `tokenStore.storeToken` (§4.3 `mint`,
`TokenStore.ts` is not under `src/`). Records provider token, code
challenge, client id and scopes with absolute expiry
`now + ttlSeconds * 1000` under the fresh token value, returning that
value. -/
def storeToken (tokens : List (String × StoredToken))
    (providerToken codeChallenge : String) (ttlSeconds : Nat)
    (clientId : String) (scopes : List String) (now : Nat)
    (freshToken : String) : String × List (String × StoredToken) :=
  (freshToken, mapSet tokens freshToken
    { githubToken := providerToken, clientCodeChallenge := codeChallenge,
      expiresAt := now + ttlSeconds * 1000, clientId := clientId,
      scopes := scopes })

/-- Modelled from the spec: `tokenStore.getToken` (§4.3 `get`). -/
def getToken (tokens : List (String × StoredToken)) (token : String) :
    Option StoredToken :=
  mapGet tokens token

/-- Modelled from the spec: `tokenStore.removeToken` (§4.3 `remove`). -/
def removeToken (tokens : List (String × StoredToken)) (token : String) :
    List (String × StoredToken) :=
  mapDel tokens token

/-- Modelled from the spec: `tokenStore.cleanExpiredTokens` (§4.3
`sweepExpired`: removes exactly the entries whose expiry has passed). -/
def cleanExpiredTokens (tokens : List (String × StoredToken)) (now : Nat) :
    List (String × StoredToken) :=
  tokens.filter (fun p => !(decide (p.2.expiresAt < now)))

/-- Outcome of the server's POST to the provider token endpoint
(`https://github.com/login/oauth/access_token`): a parsed success body, a
parsed error body, or a thrown network failure. -/
inductive GitHubTokenResp
  | success (access_token : String)
  | err (error : String) (error_description : Option String)
  | networkFailure
  deriving Repr, DecidableEq

/-- Value returned by `checkDeviceCodeStatus`: an OAuth token response or
an OAuth error object. -/
inductive CheckResult
  | tokens (access_token token_type : String) (expires_in : Int)
      (refresh_token scope : String)
  | oauthError (error error_description : String)
  deriving Repr, DecidableEq

/-- Result of one `checkDeviceCodeStatus` call: its return value, the
server state afterwards, and whether the provider token endpoint was
contacted during the call. -/
structure CheckOutcome where
  result : CheckResult
  state : ServerState
  contactedProvider : Bool
  deriving Repr, DecidableEq

/-- The provider-contacting tail of `checkDeviceCodeStatus` (the `try`
block, src/server lines 553-624): poll the provider, map
`authorization_pending` / `slow_down` / other errors through, and on
success mint a session token (1 hour validity), attach it to the device
session, and return it in OAuth token-response shape. -/
def providerPoll (st : ServerState) (deviceCode : String)
    (deviceData : DeviceCodeData) (now : Nat) (provider : GitHubTokenResp)
    (freshSession freshRefresh : String) : CheckOutcome :=
  match provider with
  | .err e d =>
    if e = "authorization_pending" then
      ⟨.oauthError "authorization_pending"
        "The user has not yet authorized this device", st, true⟩
    else if e = "slow_down" then
      ⟨.oauthError "slow_down" "Polling too frequently, slow down", st, true⟩
    else
      ⟨.oauthError e (jsOr d "Error from GitHub authorization"), st, true⟩
  | .networkFailure =>
    ⟨.oauthError "server_error" "Error checking authorization status", st, true⟩
  | .success access_token =>
    let minted := storeToken st.tokens access_token "" 3600
      deviceData.clientId ["read:user", "user:email"] now freshSession
    ⟨.tokens minted.1 "Bearer" 3600 freshRefresh "read:user user:email",
      { deviceCodes := mapSet st.deviceCodes deviceCode
          { deviceData with sessionToken := some minted.1 },
        tokens := minted.2 }, true⟩

/-- One call to `GitHubServerAuthProvider.checkDeviceCodeStatus`
(src/server lines 517-625). `now` is `Date.now()`, `provider` the outcome
the provider poll would have, `freshSession` the token value the store
mints on success and `freshRefresh` the random refresh-token placeholder.
The function is total: every path returns a `CheckOutcome`, mirroring the
fact that the method never throws (its only fallible region is wrapped in
`try`/`catch`). -/
def checkDeviceCodeStatus (st : ServerState) (deviceCode : String)
    (now : Nat) (provider : GitHubTokenResp)
    (freshSession freshRefresh : String) : CheckOutcome :=
  match mapGet st.deviceCodes deviceCode with
  | none =>
    ⟨.oauthError "invalid_grant" "Device code not found", st, false⟩
  | some deviceData =>
    if deviceData.expiresAt < now then
      ⟨.oauthError "expired_token" "Device code has expired",
        { st with deviceCodes := mapDel st.deviceCodes deviceCode }, false⟩
    else
      match deviceData.sessionToken with
      | some tk =>
        if tk ≠ "" then
          match getToken st.tokens tk with
          | some stored =>
            ⟨.tokens tk "Bearer"
                (((stored.expiresAt : Int) - (now : Int)).fdiv 1000)
                freshRefresh (String.intercalate " " stored.scopes),
              { st with deviceCodes := mapDel st.deviceCodes deviceCode },
              false⟩
          | none =>
            providerPoll st deviceCode deviceData now provider freshSession
              freshRefresh
        else
          providerPoll st deviceCode deviceData now provider freshSession
            freshRefresh
      | none =>
        providerPoll st deviceCode deviceData now provider freshSession
          freshRefresh

/-- Fields of the provider's device-code response that
`initiateDeviceFlow` consumes. -/
structure DeviceCodeResp where
  device_code : String
  user_code : String
  verification_uri : String
  expires_in : Nat
  interval : Nat
  deriving Repr, DecidableEq

/-- The bundle `initiateDeviceFlow` returns to the client. -/
structure DeviceFlowInit where
  device_code : String
  user_code : String
  verification_uri : String
  verification_uri_complete : String
  expires_in : Nat
  interval : Nat
  deriving Repr, DecidableEq

/-- `GitHubServerAuthProvider.initiateDeviceFlow` after a successful
provider call (src/server lines 483-513): registers a pending session
under the fresh internal device code and returns the bundle carrying the
internal code, never the provider's. -/
def initiateDeviceFlow (st : ServerState) (clientId : String)
    (resp : DeviceCodeResp) (now : Nat) (freshInternalCode : String) :
    DeviceFlowInit × ServerState :=
  ({ device_code := freshInternalCode, user_code := resp.user_code,
     verification_uri := resp.verification_uri,
     verification_uri_complete :=
       resp.verification_uri ++ "?user_code=" ++ resp.user_code,
     expires_in := resp.expires_in, interval := resp.interval },
   { st with deviceCodes := (mapSet st.deviceCodes freshInternalCode
      { clientId := clientId, githubDeviceCode := resp.device_code,
        userCode := resp.user_code,
        verificationUri := resp.verification_uri,
        expiresAt := now + resp.expires_in * 1000,
        interval := resp.interval, sessionToken := none }) })

/-- Identity assertion returned by `verifyAccessToken` (the `AuthInfo`
shape of src/server lines 401-406). -/
structure AuthInfo where
  token : String
  clientId : String
  scopes : List String
  expiresAt : Nat
  deriving Repr, DecidableEq

/-- Result of `verifyAccessToken`: the two thrown errors become explicit
failure values; success carries the assertion. -/
inductive VerifyResult
  | invalidToken
  | tokenExpired
  | ok (info : AuthInfo)
  deriving Repr, DecidableEq

/-- `GitHubServerAuthProvider.verifyAccessToken` (src/server lines
389-407), returning the verdict together with the token store afterwards
(eviction happens on the expired path). -/
def verifyAccessToken (tokens : List (String × StoredToken))
    (token : String) (now : Nat) :
    VerifyResult × List (String × StoredToken) :=
  match getToken tokens token with
  | none => (.invalidToken, tokens)
  | some stored =>
    if stored.expiresAt < now then
      (.tokenExpired, removeToken tokens token)
    else
      (.ok { token := token, clientId := stored.clientId,
             scopes := stored.scopes, expiresAt := stored.expiresAt },
       tokens)

/-- Deleting a key makes it absent: lookup after `mapDel` at the same key
fails. -/
theorem mapGet_mapDel {α : Type} (m : List (String × α)) (k : String) :
    mapGet (mapDel m k) k = none := by
  unfold mapGet mapDel
  induction m with
  | nil => rfl
  | cons p t ih =>
    by_cases h : p.1 = k
    · simp only [List.filter_cons]
      have hb : (p.1 != k) = false := by
        simp [bne, h]
      rw [hb]
      simp only [if_false, Bool.false_eq_true]
      exact ih
    · simp only [List.filter_cons]
      have hb : (p.1 != k) = true := by
        simpa [bne] using h
      rw [hb]
      simp only [if_true]
      rw [List.find?]
      have hb2 : (p.1 == k) = false := by
        simpa using h
      rw [hb2]
      exact ih

/-- Lookup after `mapSet` at the written key returns the written value. -/
theorem mapGet_mapSet_self {α : Type} (m : List (String × α)) (k : String)
    (v : α) : mapGet (mapSet m k v) k = some v := by
  unfold mapGet mapSet
  rw [List.find?]
  simp

/-- Branch lemma: a device code absent from the registry yields the
`invalid_grant` error, an unchanged state, and no provider contact. -/
theorem checkDeviceCodeStatus_not_found (st : ServerState) (dc : String)
    (now : Nat) (prov : GitHubTokenResp) (fs fr : String)
    (h : mapGet st.deviceCodes dc = none) :
    checkDeviceCodeStatus st dc now prov fs fr =
      ⟨.oauthError "invalid_grant" "Device code not found", st, false⟩ := by
  unfold checkDeviceCodeStatus
  rw [h]

/-- Branch lemma: an expired session yields the `expired_token` error,
removal of the session, and no provider contact. -/
theorem checkDeviceCodeStatus_expired (st : ServerState) (dc : String)
    (now : Nat) (prov : GitHubTokenResp) (fs fr : String)
    (d : DeviceCodeData) (hget : mapGet st.deviceCodes dc = some d)
    (hexp : d.expiresAt < now) :
    checkDeviceCodeStatus st dc now prov fs fr =
      ⟨.oauthError "expired_token" "Device code has expired",
        { st with deviceCodes := mapDel st.deviceCodes dc }, false⟩ := by
  unfold checkDeviceCodeStatus
  rw [hget]
  simp [hexp]

/-- Branch lemma: a live session with an attached token still present in
the store delivers that token, deletes the session, and does not contact
the provider. -/
theorem checkDeviceCodeStatus_attached (st : ServerState) (dc : String)
    (now : Nat) (prov : GitHubTokenResp) (fs fr : String)
    (d : DeviceCodeData) (tk : String) (stored : StoredToken)
    (hget : mapGet st.deviceCodes dc = some d)
    (hexp : ¬ d.expiresAt < now) (hsess : d.sessionToken = some tk)
    (htk : tk ≠ "") (hstr : getToken st.tokens tk = some stored) :
    checkDeviceCodeStatus st dc now prov fs fr =
      ⟨.tokens tk "Bearer"
          (((stored.expiresAt : Int) - (now : Int)).fdiv 1000) fr
          (String.intercalate " " stored.scopes),
        { st with deviceCodes := mapDel st.deviceCodes dc }, false⟩ := by
  unfold checkDeviceCodeStatus
  rw [hget]
  simp [hexp, hsess, htk, hstr]

/-- C3: for every device-code string not present in the registry,
`checkDeviceCodeStatus` returns the `invalid_grant` error object, leaves
the state unchanged and does not contact the provider; the embedded
function is total on this path, mirroring that the method never throws for
an unknown code. -/
theorem c3_unknown_code (st : ServerState) (dc : String) (now : Nat)
    (prov : GitHubTokenResp) (fs fr : String)
    (h : mapGet st.deviceCodes dc = none) :
    checkDeviceCodeStatus st dc now prov fs fr =
      ⟨.oauthError "invalid_grant" "Device code not found", st, false⟩ :=
  checkDeviceCodeStatus_not_found st dc now prov fs fr h

/-- C3 witness: the empty registry at a concrete unknown code. -/
theorem c3_unknown_code_witness :
    checkDeviceCodeStatus ⟨[], []⟩ "nope" 0 .networkFailure "a" "b" =
      ⟨.oauthError "invalid_grant" "Device code not found", ⟨[], []⟩, false⟩ :=
  c3_unknown_code ⟨[], []⟩ "nope" 0 .networkFailure "a" "b" rfl

/-- C4: a registered device session whose absolute expiry is in the past
yields `expired_token` without contacting the provider, the session is
removed (absent from the registry afterwards), and a later poll on the
same code returns `invalid_grant`.  No hypothesis mentions
`sessionToken`, so this holds even for a session never polled before. -/
theorem c4_expired_session_swept (st : ServerState) (dc : String)
    (now now' : Nat) (prov prov' : GitHubTokenResp) (fs fr fs' fr' : String)
    (d : DeviceCodeData) (hget : mapGet st.deviceCodes dc = some d)
    (hexp : d.expiresAt < now) :
    checkDeviceCodeStatus st dc now prov fs fr =
      ⟨.oauthError "expired_token" "Device code has expired",
        { st with deviceCodes := mapDel st.deviceCodes dc }, false⟩ ∧
    mapGet (checkDeviceCodeStatus st dc now prov fs fr).state.deviceCodes
      dc = none ∧
    (checkDeviceCodeStatus (checkDeviceCodeStatus st dc now prov fs fr).state
        dc now' prov' fs' fr').result =
      .oauthError "invalid_grant" "Device code not found" := by
  have h1 := checkDeviceCodeStatus_expired st dc now prov fs fr d hget hexp
  refine ⟨h1, ?_, ?_⟩
  · rw [h1]
    exact mapGet_mapDel _ _
  · rw [h1, checkDeviceCodeStatus_not_found _ _ _ _ _ _ (mapGet_mapDel _ _)]

/-- C4 witness: a session with `expires_in` of one second polled after two
seconds, never polled before. -/
theorem c4_expired_session_swept_witness :
    checkDeviceCodeStatus
        ⟨[("dc4", ⟨"client", "gh", "UC", "v", 1000, 5, none⟩)], []⟩
        "dc4" 2000 .networkFailure "a" "b" =
      ⟨.oauthError "expired_token" "Device code has expired", ⟨[], []⟩,
        false⟩ ∧
    mapGet (checkDeviceCodeStatus
        ⟨[("dc4", ⟨"client", "gh", "UC", "v", 1000, 5, none⟩)], []⟩
        "dc4" 2000 .networkFailure "a" "b").state.deviceCodes "dc4" = none ∧
    (checkDeviceCodeStatus (checkDeviceCodeStatus
        ⟨[("dc4", ⟨"client", "gh", "UC", "v", 1000, 5, none⟩)], []⟩
        "dc4" 2000 .networkFailure "a" "b").state
        "dc4" 3000 .networkFailure "c" "d").result =
      .oauthError "invalid_grant" "Device code not found" :=
  c4_expired_session_swept
    ⟨[("dc4", ⟨"client", "gh", "UC", "v", 1000, 5, none⟩)], []⟩
    "dc4" 2000 3000 .networkFailure .networkFailure "a" "b" "c" "d"
    ⟨"client", "gh", "UC", "v", 1000, 5, none⟩ (by decide) (by decide)

/-- Registry for the C1 scenario: a single pending session. -/
def c1State : ServerState :=
  ⟨[("dc1", ⟨"client", "gh-dc", "UC", "v", 1000000, 5, none⟩)], []⟩

/-- The poll during which the provider reports success: it mints `tk1`,
attaches it to the session, and already returns it. -/
def c1First : CheckOutcome :=
  checkDeviceCodeStatus c1State "dc1" 0 (.success "gh-at") "tk1" "r1"

/-- The next poll on the same code. -/
def c1Second : CheckOutcome :=
  checkDeviceCodeStatus c1First.state "dc1" 1000
    (.err "authorization_pending" none) "tk2" "r2"

/-- C1 counterexample: after the session has resolved successfully — the
minting poll attached `tk1` and returned it once — the next
`checkDeviceCodeStatus` call on the same internal device code returns the
token again (the session was left registered with the token attached),
not `{error: invalid_grant}`; the resolved token is therefore delivered
to two polls, not exactly one. -/
theorem c1_counterexample :
    c1First.result = .tokens "tk1" "Bearer" 3600 "r1" "read:user user:email" ∧
    (mapGet c1First.state.deviceCodes "dc1").map
      (fun d => d.sessionToken) = some (some "tk1") ∧
    c1Second.result =
      .tokens "tk1" "Bearer" 3599 "r2" "read:user user:email" := by
  decide

/-- C1 amended: the delete-on-read happens one poll later than the claim
states.  Once a poll returns the attached session token through the
attached-token branch (session present, unexpired, token still stored),
that poll removes the session, and the next call on the same internal
device code returns `invalid_grant`; the resolved token is thus delivered
by the minting poll and by exactly one later poll. -/
theorem c1_amended (st : ServerState) (dc tk : String) (now now' : Nat)
    (prov prov' : GitHubTokenResp) (fs fr fs' fr' : String)
    (d : DeviceCodeData) (stored : StoredToken)
    (hget : mapGet st.deviceCodes dc = some d)
    (hexp : ¬ d.expiresAt < now) (hsess : d.sessionToken = some tk)
    (htk : tk ≠ "") (hstr : getToken st.tokens tk = some stored) :
    (checkDeviceCodeStatus st dc now prov fs fr).result =
      .tokens tk "Bearer"
        (((stored.expiresAt : Int) - (now : Int)).fdiv 1000) fr
        (String.intercalate " " stored.scopes) ∧
    mapGet (checkDeviceCodeStatus st dc now prov fs fr).state.deviceCodes
      dc = none ∧
    (checkDeviceCodeStatus (checkDeviceCodeStatus st dc now prov fs fr).state
        dc now' prov' fs' fr').result =
      .oauthError "invalid_grant" "Device code not found" := by
  have h1 := checkDeviceCodeStatus_attached st dc now prov fs fr d tk
    stored hget hexp hsess htk hstr
  refine ⟨by rw [h1], ?_, ?_⟩
  · rw [h1]
    exact mapGet_mapDel _ _
  · rw [h1, checkDeviceCodeStatus_not_found _ _ _ _ _ _ (mapGet_mapDel _ _)]

/-- C1 amended witness: the post-mint state of the C1 scenario, consumed
by the delete-on-read poll; the call after that gets `invalid_grant`. -/
theorem c1_amended_witness :
    (checkDeviceCodeStatus c1First.state "dc1" 1000 .networkFailure "x"
        "r2").result =
      .tokens "tk1" "Bearer" 3599 "r2" "read:user user:email" ∧
    mapGet (checkDeviceCodeStatus c1First.state "dc1" 1000 .networkFailure
        "x" "r2").state.deviceCodes "dc1" = none ∧
    (checkDeviceCodeStatus (checkDeviceCodeStatus c1First.state "dc1" 1000
        .networkFailure "x" "r2").state "dc1" 2000 .networkFailure "y"
        "z").result =
      .oauthError "invalid_grant" "Device code not found" := by
  have h := c1_amended c1First.state "dc1" "tk1" 1000 2000 .networkFailure
    .networkFailure "x" "r2" "y" "z"
    ⟨"client", "gh-dc", "UC", "v", 1000000, 5, some "tk1"⟩
    ⟨"gh-at", "", 3600000, "client", ["read:user", "user:email"]⟩
    (by decide) (by decide) (by decide) (by decide) (by decide)
  exact h

/-- C2 scenario step 1: a device session created with a provider
`expires_in` of 10000 seconds. -/
def c2Init : DeviceFlowInit × ServerState :=
  initiateDeviceFlow ⟨[], []⟩ "client" ⟨"gh-dc", "UC", "v", 10000, 5⟩ 0 "dc2"

/-- C2 scenario step 2: the provider reports success at t = 10 ms; the
session resolves, attaching session token `tk1` (expiry t + 3600 s). -/
def c2AfterResolve : CheckOutcome :=
  checkDeviceCodeStatus c2Init.2 "dc2" 10 (.success "gh-at1") "tk1" "r1"

/-- C2 scenario step 3: the periodic sweep runs after `tk1` has expired
(t = 4000 s) while the device session itself is still alive. -/
def c2AfterSweep : ServerState :=
  { c2AfterResolve.state with
    tokens := cleanExpiredTokens c2AfterResolve.state.tokens 4000000 }

/-- C2 scenario step 4: a further poll on the same internal device code. -/
def c2Final : CheckOutcome :=
  checkDeviceCodeStatus c2AfterSweep "dc2" 4000000 (.success "gh-at2")
    "tk2" "r2"

/-- C2 counterexample: a reachable trace (initiate, resolve, sweep, poll)
in which a session that already carries an attached session-token
reference is polled again after the referenced token was swept from the
store: the call falls through to the provider (`contactedProvider`) and
mints a second session token `tk2` for the same session — the session was
not terminal. -/
theorem c2_counterexample :
    (mapGet c2AfterResolve.state.deviceCodes "dc2").map
      (fun d => d.sessionToken) = some (some "tk1") ∧
    c2Final.contactedProvider = true ∧
    (mapGet c2Final.state.deviceCodes "dc2").map
      (fun d => d.sessionToken) = some (some "tk2") ∧
    getToken c2Final.state.tokens "tk2" =
      some ⟨"gh-at2", "", 7600000, "client", ["read:user", "user:email"]⟩ := by
  decide

/-- C2 amended: once a session-token reference is attached, a subsequent
`checkDeviceCodeStatus` call on that internal device code neither contacts
the provider nor changes the token store — provided the referenced token
is still present in the session-token store at the time of the call (if
it has been evicted while the session is alive, the call falls through to
the provider and may re-resolve, as the counterexample shows). -/
theorem c2_amended (st : ServerState) (dc tk : String) (now : Nat)
    (prov : GitHubTokenResp) (fs fr : String) (d : DeviceCodeData)
    (hget : mapGet st.deviceCodes dc = some d)
    (hsess : d.sessionToken = some tk) (htk : tk ≠ "")
    (hstr : (getToken st.tokens tk).isSome = true) :
    (checkDeviceCodeStatus st dc now prov fs fr).contactedProvider =
      false ∧
    (checkDeviceCodeStatus st dc now prov fs fr).state.tokens =
      st.tokens := by
  by_cases hexp : d.expiresAt < now
  · rw [checkDeviceCodeStatus_expired st dc now prov fs fr d hget hexp]
    exact ⟨rfl, rfl⟩
  · obtain ⟨stored, hs⟩ := Option.isSome_iff_exists.mp hstr
    rw [checkDeviceCodeStatus_attached st dc now prov fs fr d tk stored
      hget hexp hsess htk hs]
    exact ⟨rfl, rfl⟩

/-- C2 amended witness: the post-resolve state of the C2 scenario, polled
again while `tk1` is still stored. -/
theorem c2_amended_witness :
    (checkDeviceCodeStatus c2AfterResolve.state "dc2" 1000 .networkFailure
        "x" "y").contactedProvider = false ∧
    (checkDeviceCodeStatus c2AfterResolve.state "dc2" 1000 .networkFailure
        "x" "y").state.tokens = c2AfterResolve.state.tokens := by
  have h := c2_amended c2AfterResolve.state "dc2" "tk1" 1000
    .networkFailure "x" "y"
    ⟨"client", "gh-dc", "UC", "v", 10000000, 5, some "tk1"⟩
    (by decide) (by decide) (by decide) (by decide)
  exact h

/-- C9: `verifyAccessToken` fails with the invalid-token error when the
token is absent from the session-token store; fails with the
token-expired error and removes the token when its expiry is in the past;
and otherwise returns an identity assertion holding exactly the token
value, the client identifier, the granted scopes, and the expiry — which
for a token produced by `storeToken` is exactly the expiry recorded at
mint time, `t0 + ttl * 1000`. -/
theorem c9_verifyAccessToken_cases (tokens : List (String × StoredToken))
    (t : String) (now t0 : Nat) (providerTok cc ft cid : String)
    (ttl : Nat) (scopes : List String) :
    (getToken tokens t = none →
      verifyAccessToken tokens t now = (.invalidToken, tokens)) ∧
    (∀ s, getToken tokens t = some s → s.expiresAt < now →
      verifyAccessToken tokens t now =
        (.tokenExpired, removeToken tokens t)) ∧
    (∀ s, getToken tokens t = some s → ¬ s.expiresAt < now →
      verifyAccessToken tokens t now =
        (.ok ⟨t, s.clientId, s.scopes, s.expiresAt⟩, tokens)) ∧
    (¬ t0 + ttl * 1000 < now →
      verifyAccessToken
          (storeToken tokens providerTok cc ttl cid scopes t0 ft).2 ft
          now =
        (.ok ⟨ft, cid, scopes, t0 + ttl * 1000⟩,
         (storeToken tokens providerTok cc ttl cid scopes t0 ft).2)) := by
  refine ⟨?_, ?_, ?_, ?_⟩
  · intro h
    unfold verifyAccessToken
    rw [h]
  · intro s h hexp
    unfold verifyAccessToken
    rw [h]
    simp [hexp]
  · intro s h hexp
    unfold verifyAccessToken
    rw [h]
    simp [hexp]
  · intro hexp
    unfold verifyAccessToken
    have hg : getToken
        (storeToken tokens providerTok cc ttl cid scopes t0 ft).2 ft =
        some { githubToken := providerTok, clientCodeChallenge := cc,
               expiresAt := t0 + ttl * 1000, clientId := cid,
               scopes := scopes } := by
      unfold storeToken getToken
      exact mapGet_mapSet_self _ _ _
    rw [hg]
    simp [hexp]

/-- C9 witness: a concrete store exercising all four cases, including
verification of a freshly minted token. -/
theorem c9_verifyAccessToken_cases_witness :
    verifyAccessToken [("tok", ⟨"gh", "", 5000, "cid", ["read:user"]⟩)]
        "absent" 0 =
      (.invalidToken, [("tok", ⟨"gh", "", 5000, "cid", ["read:user"]⟩)]) ∧
    verifyAccessToken [("tok", ⟨"gh", "", 5000, "cid", ["read:user"]⟩)]
        "tok" 6000 =
      (.tokenExpired,
       removeToken [("tok", ⟨"gh", "", 5000, "cid", ["read:user"]⟩)] "tok") ∧
    verifyAccessToken [("tok", ⟨"gh", "", 5000, "cid", ["read:user"]⟩)]
        "tok" 1000 =
      (.ok ⟨"tok", "cid", ["read:user"], 5000⟩,
       [("tok", ⟨"gh", "", 5000, "cid", ["read:user"]⟩)]) ∧
    verifyAccessToken (storeToken [] "gh2" "" 3600 "c2" ["a"] 100 "new").2
        "new" 500 =
      (.ok ⟨"new", "c2", ["a"], 3600100⟩,
       (storeToken [] "gh2" "" 3600 "c2" ["a"] 100 "new").2) := by
  refine ⟨?_, ?_, ?_, ?_⟩
  · exact (c9_verifyAccessToken_cases
      [("tok", ⟨"gh", "", 5000, "cid", ["read:user"]⟩)] "absent" 0 100
      "gh2" "" "new" "c2" 3600 ["a"]).1 (by decide)
  · exact (c9_verifyAccessToken_cases
      [("tok", ⟨"gh", "", 5000, "cid", ["read:user"]⟩)] "tok" 6000 100
      "gh2" "" "new" "c2" 3600 ["a"]).2.1
      ⟨"gh", "", 5000, "cid", ["read:user"]⟩ (by decide) (by decide)
  · exact (c9_verifyAccessToken_cases
      [("tok", ⟨"gh", "", 5000, "cid", ["read:user"]⟩)] "tok" 1000 100
      "gh2" "" "new" "c2" 3600 ["a"]).2.2.1
      ⟨"gh", "", 5000, "cid", ["read:user"]⟩ (by decide) (by decide)
  · exact (c9_verifyAccessToken_cases [] "x" 500 100 "gh2" "" "new" "c2"
      3600 ["a"]).2.2.2 (by decide)

/-- Static configuration of one `pollForAuthorization` invocation
(src/client lines 192-221): the absolute deadline
`maxTime = startTime + timeout * 1000` and whether the two optional
observer callbacks were supplied. -/
structure PollConfig where
  maxTime : Nat
  onPending : Bool
  onError : Bool
  deriving Repr, DecidableEq

/-- Callback invocations observable during polling. -/
inductive ClientEvent
  | pending
  | errorCb (msg : String)
  deriving Repr, DecidableEq

/-- Mutable state of the polling loop: the clock, the current interval in
seconds, the callback invocations so far, the times at which status
requests were issued, and the client-side storage effects. -/
structure LoopState where
  now : Nat
  interval : Nat
  events : List ClientEvent
  requests : List Nat
  savedTokens : Option String
  deviceCodeCleared : Bool
  deriving Repr, DecidableEq

/-- Environment of one loop iteration: what the awaited `fetch` and
`response.json()` produce — a success body (`response.ok`), a parsed error
body (`!response.ok`), or a thrown `Error` with the given message. -/
inductive FetchOutcome
  | ok (body : String)
  | errBody (error : String) (error_description : Option String)
  | exn (msg : String)
  deriving Repr, DecidableEq

/-- One iteration's environment: the fetch outcome and how many
milliseconds the network round trip takes. -/
structure IterInput where
  outcome : FetchOutcome
  dur : Nat
  deriving Repr, DecidableEq

/-- Record an `onPending` invocation when that callback was supplied. -/
def emitPending (cfg : PollConfig) (st : LoopState) : LoopState :=
  if cfg.onPending then { st with events := st.events ++ [.pending] }
  else st

/-- Record an `onError` invocation when that callback was supplied. -/
def emitError (cfg : PollConfig) (st : LoopState) (msg : String) :
    LoopState :=
  if cfg.onError then { st with events := st.events ++ [.errorCb msg] }
  else st

/-- State after the iteration's sleep and fetch: the loop first sleeps for
the full current interval, then issues the status request (recorded at
that instant), and `dur` more milliseconds pass until the response or
exception is processed. -/
def afterFetch (st : LoopState) (dur : Nat) : LoopState :=
  { st with now := st.now + st.interval * 1000 + dur,
            requests := st.requests ++ [st.now + st.interval * 1000] }

/-- The expiry sentinel message thrown on `expired_token` and recognised
again, by string comparison, in the `catch` clause. -/
def expirySentinel : String := "Authorization request expired"

/-- Verdict of one loop iteration body. -/
inductive StepRes
  | next (st : LoopState)
  | success (body : String) (st : LoopState)
  | expired (st : LoopState)
  deriving Repr, DecidableEq

/-- State carried by a step verdict. -/
def StepRes.state : StepRes → LoopState
  | .next st => st
  | .success _ st => st
  | .expired st => st

/-- One iteration body of `pollForAuthorization` (src/client lines
224-276): sleep, fetch, branch on the response, with every thrown error
routed through the `catch` clause, which re-throws exactly the errors
whose message equals the expiry sentinel and treats everything else as a
transient failure (second `onError` invocation, continue). -/
def pollStep (cfg : PollConfig) (st : LoopState) (inp : IterInput) :
    StepRes :=
  let st0 := afterFetch st inp.dur
  match inp.outcome with
  | .ok body =>
    .success body
      { st0 with savedTokens := some body, deviceCodeCleared := true }
  | .errBody e d =>
    if e = "authorization_pending" then
      .next (emitPending cfg st0)
    else if e = "slow_down" then
      .next { st0 with interval := st0.interval + 5 }
    else if e = "expired_token" then
      .expired (emitError cfg st0 expirySentinel)
    else
      let msg := jsOr d e
      let st1 := emitError cfg st0 msg
      if msg = expirySentinel then .expired st1
      else .next (emitError cfg st1 ("Network error: Error: " ++ msg))
  | .exn msg =>
    if msg = expirySentinel then .expired st0
    else .next (emitError cfg st0 ("Network error: Error: " ++ msg))

/-- Outcome of the whole polling loop: the returned token body, the
re-thrown expiry error, the timeout error thrown after the loop, or the
marker that the supplied environment ended while the loop would still
continue. -/
inductive PollOutcome
  | success (body : String) (final : LoopState)
  | expired (final : LoopState)
  | timedOut (final : LoopState)
  | envExhausted (final : LoopState)
  deriving Repr, DecidableEq

/-- Final loop state carried by an outcome. -/
def PollOutcome.state : PollOutcome → LoopState
  | .success _ st => st
  | .expired st => st
  | .timedOut st => st
  | .envExhausted st => st

/-- True exactly on the `envExhausted` marker. -/
def PollOutcome.isEnvExhausted : PollOutcome → Bool
  | .envExhausted _ => true
  | _ => false

/-- True exactly on the thrown-timeout outcome. -/
def PollOutcome.isTimedOut : PollOutcome → Bool
  | .timedOut _ => true
  | _ => false

/-- The `while (Date.now() < maxTime)` loop of `pollForAuthorization`
(src/client lines 223-279), driven by a list of per-iteration fetch
outcomes. -/
def pollLoop (cfg : PollConfig) : LoopState → List IterInput → PollOutcome
  | st, [] =>
    if st.now < cfg.maxTime then .envExhausted st else .timedOut st
  | st, inp :: rest =>
    if st.now < cfg.maxTime then
      match pollStep cfg st inp with
      | .next st' => pollLoop cfg st' rest
      | .success b st' => .success b st'
      | .expired st' => .expired st'
    else .timedOut st

/-- Default `interval` parameter (seconds) of `pollForAuthorization`
(src/client line 194). -/
def defaultPollInterval : Nat := 50

/-- Default `timeout` parameter (seconds) of `pollForAuthorization`
(src/client line 195). -/
def defaultPollTimeout : Nat := 300

/-- The destructuring default: an omitted `interval` option resolves to
the default of 50 seconds. -/
def resolvedInterval (interval : Option Nat) : Nat :=
  interval.getD defaultPollInterval

/-- The destructuring default: an omitted `timeout` option resolves to the
default of 300 seconds. -/
def resolvedTimeout (timeout : Option Nat) : Nat :=
  timeout.getD defaultPollTimeout

/-- Entry into the polling loop of `pollForAuthorization`:
`maxTime = startTime + timeout * 1000`, and the loop starts with the
resolved interval, the clock at `startTime`, and empty observation
lists. -/
def pollForAuthorization (startTime : Nat) (interval timeout : Option Nat)
    (hasOnPending hasOnError : Bool) (env : List IterInput) : PollOutcome :=
  pollLoop
    ⟨startTime + resolvedTimeout timeout * 1000, hasOnPending, hasOnError⟩
    ⟨startTime, resolvedInterval interval, [], [], none, false⟩ env

/-- Whether a fetch outcome is the parsed `slow_down` error body. -/
def isSlowDownResp : FetchOutcome → Bool
  | .errBody e _ => e == "slow_down"
  | _ => false

/-- Emitting a pending event leaves the clock unchanged. -/
theorem emitPending_now (cfg : PollConfig) (st : LoopState) :
    (emitPending cfg st).now = st.now := by
  unfold emitPending
  split <;> rfl

/-- Emitting a pending event leaves the interval unchanged. -/
theorem emitPending_interval (cfg : PollConfig) (st : LoopState) :
    (emitPending cfg st).interval = st.interval := by
  unfold emitPending
  split <;> rfl

/-- Emitting a pending event leaves the request log unchanged. -/
theorem emitPending_requests (cfg : PollConfig) (st : LoopState) :
    (emitPending cfg st).requests = st.requests := by
  unfold emitPending
  split <;> rfl

/-- Emitting an error event leaves the clock unchanged. -/
theorem emitError_now (cfg : PollConfig) (st : LoopState) (m : String) :
    (emitError cfg st m).now = st.now := by
  unfold emitError
  split <;> rfl

/-- Emitting an error event leaves the interval unchanged. -/
theorem emitError_interval (cfg : PollConfig) (st : LoopState)
    (m : String) : (emitError cfg st m).interval = st.interval := by
  unfold emitError
  split <;> rfl

/-- Emitting an error event leaves the request log unchanged. -/
theorem emitError_requests (cfg : PollConfig) (st : LoopState)
    (m : String) : (emitError cfg st m).requests = st.requests := by
  unfold emitError
  split <;> rfl

/-- Field accounting for one loop iteration: the clock advances by the
full sleep plus the fetch duration, exactly one status request is logged
at the post-sleep instant, and the interval changes only on `slow_down`,
where it grows by exactly 5 seconds. -/
theorem pollStep_state_fields (cfg : PollConfig) (st : LoopState)
    (inp : IterInput) :
    ((pollStep cfg st inp).state).now =
      st.now + st.interval * 1000 + inp.dur ∧
    ((pollStep cfg st inp).state).requests =
      st.requests ++ [st.now + st.interval * 1000] ∧
    ((pollStep cfg st inp).state).interval =
      (if isSlowDownResp inp.outcome then st.interval + 5
       else st.interval) := by
  obtain ⟨o, dur⟩ := inp
  cases o with
  | ok body =>
    refine ⟨?_, ?_, ?_⟩ <;>
      simp [pollStep, isSlowDownResp, StepRes.state, afterFetch]
  | errBody e d =>
    by_cases h1 : e = "authorization_pending"
    · refine ⟨?_, ?_, ?_⟩ <;>
        simp [pollStep, isSlowDownResp, h1, StepRes.state, afterFetch,
          emitPending_now, emitPending_requests, emitPending_interval]
    · by_cases h2 : e = "slow_down"
      · refine ⟨?_, ?_, ?_⟩ <;>
          simp [pollStep, isSlowDownResp, h1, h2, StepRes.state, afterFetch]
      · by_cases h3 : e = "expired_token"
        · refine ⟨?_, ?_, ?_⟩ <;>
            simp [pollStep, isSlowDownResp, h1, h2, h3, StepRes.state,
              afterFetch, emitError_now, emitError_requests,
              emitError_interval]
        · by_cases h4 : jsOr d e = expirySentinel
          · refine ⟨?_, ?_, ?_⟩ <;>
              simp [pollStep, isSlowDownResp, h1, h2, h3, h4,
                StepRes.state, afterFetch, emitError_now,
                emitError_requests, emitError_interval]
          · refine ⟨?_, ?_, ?_⟩ <;>
              simp [pollStep, isSlowDownResp, h1, h2, h3, h4,
                StepRes.state, afterFetch, emitError_now,
                emitError_requests, emitError_interval]
  | exn msg =>
    by_cases h : msg = expirySentinel
    · refine ⟨?_, ?_, ?_⟩ <;>
        simp [pollStep, isSlowDownResp, h, StepRes.state, afterFetch]
    · refine ⟨?_, ?_, ?_⟩ <;>
        simp [pollStep, isSlowDownResp, h, StepRes.state, afterFetch,
          emitError_now, emitError_requests, emitError_interval]

/-- A `slow_down` body always continues the loop, with the interval grown
by exactly 5 seconds. -/
theorem pollStep_slowDown_next (cfg : PollConfig) (st : LoopState)
    (inp : IterInput) (h : isSlowDownResp inp.outcome = true) :
    pollStep cfg st inp =
      .next { afterFetch st inp.dur with interval := st.interval + 5 } := by
  obtain ⟨o, dur⟩ := inp
  cases o with
  | ok body => simp [isSlowDownResp] at h
  | exn m => simp [isSlowDownResp] at h
  | errBody e d =>
    simp only [isSlowDownResp, beq_iff_eq] at h
    subst h
    simp [pollStep, afterFetch]

/-- The interval never decreases across a whole polling run. -/
theorem pollLoop_interval_mono (cfg : PollConfig) :
    ∀ (env : List IterInput) (st : LoopState),
      st.interval ≤ ((pollLoop cfg st env).state).interval := by
  intro env
  induction env with
  | nil =>
    intro st
    simp only [pollLoop]
    split <;> simp [PollOutcome.state]
  | cons inp rest ih =>
    intro st
    simp only [pollLoop]
    split
    · have hstep := (pollStep_state_fields cfg st inp).2.2
      split
      next st' heq =>
        rw [heq] at hstep
        simp only [StepRes.state] at hstep
        have h1 : st.interval ≤ st'.interval := by
          split at hstep <;> omega
        exact le_trans h1 (ih st')
      next b st' heq =>
        rw [heq] at hstep
        simp only [StepRes.state] at hstep
        simp only [PollOutcome.state]
        split at hstep <;> omega
      next st' heq =>
        rw [heq] at hstep
        simp only [StepRes.state] at hstep
        simp only [PollOutcome.state]
        split at hstep <;> omega
    · simp [PollOutcome.state]

/-- Once enough iterations fit below the deadline, the loop never runs off
the end of its environment: with `env` at least `timeout / interval`
iterations long (stated multiplicatively), the run ends in a real outcome,
not in `envExhausted` — in particular, for any positive interval the loop
terminates. -/
theorem pollLoop_not_exhausted (cfg : PollConfig) :
    ∀ (env : List IterInput) (st : LoopState),
      cfg.maxTime ≤ st.now + st.interval * 1000 * env.length →
      (pollLoop cfg st env).isEnvExhausted = false := by
  intro env
  induction env with
  | nil =>
    intro st h
    simp only [List.length_nil, Nat.mul_zero, Nat.add_zero] at h
    have hlt : ¬ st.now < cfg.maxTime := by omega
    simp [pollLoop, hlt, PollOutcome.isEnvExhausted]
  | cons inp rest ih =>
    intro st h
    simp only [pollLoop]
    split
    · have hn := (pollStep_state_fields cfg st inp).1
      have hi := (pollStep_state_fields cfg st inp).2.2
      split
      next st' heq =>
        rw [heq] at hn hi
        simp only [StepRes.state] at hn hi
        apply ih st'
        have hi2 : st.interval ≤ st'.interval := by
          split at hi <;> omega
        have hm : st.interval * 1000 * rest.length ≤
            st'.interval * 1000 * rest.length :=
          Nat.mul_le_mul_right rest.length
            (Nat.mul_le_mul_right 1000 hi2)
        have hexp : st.interval * 1000 * (rest.length + 1) =
            st.interval * 1000 * rest.length + st.interval * 1000 := by
          ring
        simp only [List.length_cons] at h
        linarith
      next b st' heq => simp [PollOutcome.isEnvExhausted]
      next st' heq => simp [PollOutcome.isEnvExhausted]
    · simp [PollOutcome.isEnvExhausted]

/-- The largest network duration occurring in an environment. -/
def maxDur (env : List IterInput) : Nat :=
  env.foldr (fun i m => max i.dur m) 0

/-- Unfolding equation for `maxDur`. -/
theorem maxDur_cons (inp : IterInput) (rest : List IterInput) :
    maxDur (inp :: rest) = max inp.dur (maxDur rest) := rfl

/-- Overshoot bound for the loop: the final clock never passes the
deadline by more than one final sleep interval plus one network round
trip — the loop admits no new iteration once `maxTime` is reached, but
the iteration already in flight may finish past it. -/
theorem pollLoop_now_bound (cfg : PollConfig) :
    ∀ (env : List IterInput) (st : LoopState),
      ((pollLoop cfg st env).state).now ≤
        max st.now (cfg.maxTime +
          ((pollLoop cfg st env).state).interval * 1000 + maxDur env) := by
  intro env
  induction env with
  | nil =>
    intro st
    simp only [pollLoop]
    split <;> simp [PollOutcome.state]
  | cons inp rest ih =>
    intro st
    simp only [pollLoop]
    split
    next hlt =>
      have hn := (pollStep_state_fields cfg st inp).1
      have hi := (pollStep_state_fields cfg st inp).2.2
      split
      next st' heq =>
        rw [heq] at hn hi
        simp only [StepRes.state] at hn hi
        have hi2 : st.interval ≤ st'.interval := by
          split at hi <;> omega
        have hmono := pollLoop_interval_mono cfg rest st'
        have hIH := ih st'
        refine le_trans hIH (le_trans (max_le ?_ ?_) (le_max_right _ _))
        · rw [maxDur_cons]
          have : st'.interval * 1000 ≤
              ((pollLoop cfg st' rest).state).interval * 1000 :=
            Nat.mul_le_mul_right 1000 hmono
          have hd : inp.dur ≤ max inp.dur (maxDur rest) := le_max_left _ _
          omega
        · rw [maxDur_cons]
          have hd : maxDur rest ≤ max inp.dur (maxDur rest) :=
            le_max_right _ _
          omega
      next b st' heq =>
        rw [heq] at hn hi
        simp only [StepRes.state] at hn hi
        simp only [PollOutcome.state]
        apply le_trans ?_ (le_max_right _ _)
        rw [maxDur_cons]
        have hi2 : st.interval ≤ st'.interval := by
          split at hi <;> omega
        have : st.interval * 1000 ≤ st'.interval * 1000 :=
          Nat.mul_le_mul_right 1000 hi2
        have hd : inp.dur ≤ max inp.dur (maxDur rest) := le_max_left _ _
        omega
      next st' heq =>
        rw [heq] at hn hi
        simp only [StepRes.state] at hn hi
        simp only [PollOutcome.state]
        apply le_trans ?_ (le_max_right _ _)
        rw [maxDur_cons]
        have hi2 : st.interval ≤ st'.interval := by
          split at hi <;> omega
        have : st.interval * 1000 ≤ st'.interval * 1000 :=
          Nat.mul_le_mul_right 1000 hi2
        have hd : inp.dur ≤ max inp.dur (maxDur rest) := le_max_left _ _
        omega
    · simp [PollOutcome.state]

/-- Every status request a run issues beyond those already logged happens
at or after the end of the first full sleep: no request is issued before
`now + interval * 1000`. -/
theorem pollLoop_requests_lb (cfg : PollConfig) :
    ∀ (env : List IterInput) (st : LoopState) (t : Nat),
      t ∈ ((pollLoop cfg st env).state).requests →
      t ∈ st.requests ∨ st.now + st.interval * 1000 ≤ t := by
  intro env
  induction env with
  | nil =>
    intro st t ht
    simp only [pollLoop] at ht
    split at ht <;> simp only [PollOutcome.state] at ht <;>
      exact Or.inl ht
  | cons inp rest ih =>
    intro st t ht
    simp only [pollLoop] at ht
    split at ht
    · have hn := (pollStep_state_fields cfg st inp).1
      have hi := (pollStep_state_fields cfg st inp).2.2
      have hr := (pollStep_state_fields cfg st inp).2.1
      split at ht
      next st' heq =>
        rw [heq] at hn hi hr
        simp only [StepRes.state] at hn hi hr
        rcases ih st' t ht with h1 | h1
        · rw [hr] at h1
          rcases List.mem_append.mp h1 with h2 | h2
          · exact Or.inl h2
          · right
            simp only [List.mem_singleton] at h2
            omega
        · right
          have hi2 : st.interval ≤ st'.interval := by
            split at hi <;> omega
          have : st.interval * 1000 ≤ st'.interval * 1000 :=
            Nat.mul_le_mul_right 1000 hi2
          omega
      next b st' heq =>
        rw [heq] at hr
        simp only [StepRes.state] at hr
        simp only [PollOutcome.state] at ht
        rw [hr] at ht
        rcases List.mem_append.mp ht with h2 | h2
        · exact Or.inl h2
        · right
          simp only [List.mem_singleton] at h2
          omega
      next st' heq =>
        rw [heq] at hr
        simp only [StepRes.state] at hr
        simp only [PollOutcome.state] at ht
        rw [hr] at ht
        rcases List.mem_append.mp ht with h2 | h2
        · exact Or.inl h2
        · right
          simp only [List.mem_singleton] at h2
          omega
    · simp only [PollOutcome.state] at ht
      exact Or.inl ht

/-- C5: within one `pollForAuthorization` invocation, a `slow_down`
response increases the interval by exactly 5 seconds and this is the only
mutation of the interval — every continuing step has new interval
`old + 5` exactly when the response was `slow_down` and `old` otherwise,
terminal steps leave it unchanged — and the interval is monotonically
non-decreasing over the whole polling run. -/
theorem c5_slow_down_only_mutation (cfg : PollConfig) (st : LoopState)
    (inp : IterInput) (env : List IterInput) :
    (∀ st', pollStep cfg st inp = .next st' →
      st'.interval =
        (if isSlowDownResp inp.outcome then st.interval + 5
         else st.interval)) ∧
    (∀ b st', pollStep cfg st inp = .success b st' →
      st'.interval = st.interval) ∧
    (∀ st', pollStep cfg st inp = .expired st' →
      st'.interval = st.interval) ∧
    st.interval ≤ ((pollLoop cfg st env).state).interval := by
  have hfields := (pollStep_state_fields cfg st inp).2.2
  refine ⟨?_, ?_, ?_, pollLoop_interval_mono cfg env st⟩
  · intro st' h
    rw [h] at hfields
    simpa only [StepRes.state] using hfields
  · intro b st' h
    by_cases hs : isSlowDownResp inp.outcome
    · have h2 := pollStep_slowDown_next cfg st inp hs
      rw [h] at h2
      exact absurd h2 (by simp)
    · rw [h] at hfields
      simp only [StepRes.state] at hfields
      simpa [hs] using hfields
  · intro st' h
    by_cases hs : isSlowDownResp inp.outcome
    · have h2 := pollStep_slowDown_next cfg st inp hs
      rw [h] at h2
      exact absurd h2 (by simp)
    · rw [h] at hfields
      simp only [StepRes.state] at hfields
      simpa [hs] using hfields

/-- C5 witness: a concrete `slow_down` step grows 10 to 15, and a run
starting at interval 10 never drops below it. -/
theorem c5_slow_down_only_mutation_witness :
    (⟨10000, 15, [], [10000], none, false⟩ : LoopState).interval =
      10 + 5 ∧
    10 ≤ ((pollLoop ⟨1000000, true, true⟩ ⟨0, 10, [], [], none, false⟩
      [⟨.errBody "slow_down" none, 0⟩]).state).interval := by
  have h := c5_slow_down_only_mutation ⟨1000000, true, true⟩
    ⟨0, 10, [], [], none, false⟩ ⟨.errBody "slow_down" none, 0⟩
    [⟨.errBody "slow_down" none, 0⟩]
  refine ⟨?_, h.2.2.2⟩
  have h1 := h.1 ⟨10000, 15, [], [10000], none, false⟩ (by decide)
  rw [h1]
  decide

/-- Environment for the C6 scenario: six consecutive
`authorization_pending` responses, each poll taking one second. -/
def c6Env : List IterInput :=
  List.replicate 6 ⟨.errBody "authorization_pending" none, 1000⟩

/-- C6 counterexample: an invocation at time 0 with the default interval
(50 s) and default timeout (300 s) against six pending polls of one
second each throws its timeout error only at t = 306 s — strictly more
than `timeout` seconds after invocation — because the loop guard runs
before the sleep, so the final iteration's sleep and request overshoot
the deadline.  The claim that polling terminates within `timeout`
seconds of invocation in all cases is therefore false (though the loop
does terminate). -/
theorem c6_counterexample :
    (pollForAuthorization 0 none none false false c6Env).isTimedOut =
      true ∧
    ((pollForAuthorization 0 none none false false c6Env).state).now =
      306000 ∧
    resolvedTimeout none * 1000 = 300000 := by
  decide

/-- C6 amended: the loop always terminates, but only within `timeout`
seconds *plus one final sleep interval plus one network round trip*: the
final clock never exceeds `maxTime + interval * 1000 + maxDur env`, and
whenever the environment is long enough relative to `timeout / interval`
the run ends in a real outcome rather than exhausting the environment —
so for any positive interval there is no infinite loop. -/
theorem c6_amended_bounded_overshoot (cfg : PollConfig) (st : LoopState)
    (env : List IterInput) :
    ((pollLoop cfg st env).state).now ≤
      max st.now (cfg.maxTime +
        ((pollLoop cfg st env).state).interval * 1000 + maxDur env) ∧
    (cfg.maxTime ≤ st.now + st.interval * 1000 * env.length →
      (pollLoop cfg st env).isEnvExhausted = false) :=
  ⟨pollLoop_now_bound cfg env st,
   fun h => pollLoop_not_exhausted cfg env st h⟩

/-- C6 amended witness: the C6 scenario run satisfies the overshoot bound
and, its six iterations covering the 300 s deadline at 50 s apiece, is
not exhausted. -/
theorem c6_amended_bounded_overshoot_witness :
    ((pollLoop ⟨300000, false, false⟩ ⟨0, 50, [], [], none, false⟩
        c6Env).state).now ≤
      max 0 (300000 +
        ((pollLoop ⟨300000, false, false⟩ ⟨0, 50, [], [], none, false⟩
          c6Env).state).interval * 1000 + maxDur c6Env) ∧
    (pollLoop ⟨300000, false, false⟩ ⟨0, 50, [], [], none, false⟩
      c6Env).isEnvExhausted = false := by
  have h := c6_amended_bounded_overshoot ⟨300000, false, false⟩
    ⟨0, 50, [], [], none, false⟩ c6Env
  exact ⟨h.1, h.2 (by decide)⟩

/-- C7: a poll response carrying error `expired_token` terminates the
loop immediately with the thrown expiry failure — modelled by the
`expired` outcome carrying the sentinel message, with the `onError`
callback invoked with that message when supplied — and the result does
not depend on the remaining environment: no further poll attempt is
made, and the expiry is never treated as a transient error. -/
theorem c7_expired_token_terminal (cfg : PollConfig) (st : LoopState)
    (d : Option String) (dur : Nat) (rest : List IterInput)
    (h : st.now < cfg.maxTime) :
    pollLoop cfg st (⟨.errBody "expired_token" d, dur⟩ :: rest) =
      .expired (emitError cfg (afterFetch st dur) expirySentinel) := by
  simp only [pollLoop, if_pos h]
  have hs : pollStep cfg st ⟨.errBody "expired_token" d, dur⟩ =
      .expired (emitError cfg (afterFetch st dur) expirySentinel) := by
    simp [pollStep]
  rw [hs]

/-- C7 witness: an `expired_token` response with a would-be-successful
poll still queued behind it; the loop ends in the expiry failure without
consuming it. -/
theorem c7_expired_token_terminal_witness :
    pollLoop ⟨300000, false, true⟩ ⟨0, 5, [], [], none, false⟩
        (⟨.errBody "expired_token" none, 0⟩ :: [⟨.ok "tok", 0⟩]) =
      .expired ⟨5000, 5, [.errorCb "Authorization request expired"],
        [5000], none, false⟩ := by
  have h := c7_expired_token_terminal ⟨300000, false, true⟩
    ⟨0, 5, [], [], none, false⟩ none 0 [⟨.ok "tok", 0⟩] (by decide)
  exact h

/-- C8 counterexample: a server error body whose code is neither
`authorization_pending` nor `slow_down` nor `expired_token` but whose
`error_description` happens to equal the sentinel string
"Authorization request expired" does **not** continue the loop: the
thrown error's message matches the sentinel comparison in the `catch`
clause, so the loop aborts with the expiry failure even though a
successful poll was queued next.  The claim that every server error
other than the three named codes lets the loop continue is therefore
false. -/
theorem c8_counterexample :
    pollLoop ⟨10000000, false, true⟩ ⟨0, 5, [], [], none, false⟩
        [⟨.errBody "invalid_client" (some "Authorization request expired"),
           0⟩, ⟨.ok "tok", 0⟩] =
      .expired ⟨5000, 5, [.errorCb "Authorization request expired"],
        [5000], none, false⟩ := by
  decide

/-- C8 amended: a network-level exception, or a server error body outside
`authorization_pending` / `slow_down` / `expired_token`, invokes the
error callback (visible in the emitted events) and the loop continues to
the next iteration — *provided* the exception's message, respectively the
error body's description (or its code when the description is empty or
absent), is not exactly the sentinel string "Authorization request
expired"; an error matching the sentinel aborts the loop like an expiry,
as the counterexample shows. -/
theorem c8_amended_transient_continue (cfg : PollConfig) (st : LoopState)
    (rest : List IterInput) (e msg : String) (d : Option String)
    (dur : Nat) (hN : st.now < cfg.maxTime) :
    (msg ≠ expirySentinel →
      pollLoop cfg st (⟨.exn msg, dur⟩ :: rest) =
        pollLoop cfg
          (emitError cfg (afterFetch st dur)
            ("Network error: Error: " ++ msg)) rest) ∧
    (e ≠ "authorization_pending" → e ≠ "slow_down" →
      e ≠ "expired_token" → jsOr d e ≠ expirySentinel →
      pollLoop cfg st (⟨.errBody e d, dur⟩ :: rest) =
        pollLoop cfg
          (emitError cfg (emitError cfg (afterFetch st dur) (jsOr d e))
            ("Network error: Error: " ++ jsOr d e)) rest) := by
  constructor
  · intro hm
    simp only [pollLoop, if_pos hN]
    have hs : pollStep cfg st ⟨.exn msg, dur⟩ =
        .next (emitError cfg (afterFetch st dur)
          ("Network error: Error: " ++ msg)) := by
      simp [pollStep, hm]
    rw [hs]
  · intro h1 h2 h3 h4
    simp only [pollLoop, if_pos hN]
    have hs : pollStep cfg st ⟨.errBody e d, dur⟩ =
        .next (emitError cfg (emitError cfg (afterFetch st dur) (jsOr d e))
          ("Network error: Error: " ++ jsOr d e)) := by
      simp [pollStep, h1, h2, h3, h4]
    rw [hs]

/-- C8 amended witness: a network exception and an `invalid_client` error
body, both away from the sentinel, each continue the run with the error
callback invoked. -/
theorem c8_amended_transient_continue_witness :
    pollLoop ⟨10000000, false, true⟩ ⟨0, 5, [], [], none, false⟩
        [⟨.exn "boom", 0⟩] =
      pollLoop ⟨10000000, false, true⟩
        ⟨5000, 5, [.errorCb "Network error: Error: boom"], [5000], none,
          false⟩ [] ∧
    pollLoop ⟨10000000, false, true⟩ ⟨0, 5, [], [], none, false⟩
        [⟨.errBody "invalid_client" (some "nope"), 0⟩] =
      pollLoop ⟨10000000, false, true⟩
        ⟨5000, 5, [.errorCb "nope",
          .errorCb "Network error: Error: nope"], [5000], none, false⟩
        [] := by
  have h := c8_amended_transient_continue ⟨10000000, false, true⟩
    ⟨0, 5, [], [], none, false⟩ [] "invalid_client" "boom" (some "nope")
    0 (by decide)
  exact ⟨h.1 (by decide),
    h.2 (by decide) (by decide) (by decide) (by decide)⟩

/-- C10: every iteration, the first included, sleeps for the full current
interval before issuing its status request — the request instant logged
by a step is exactly `now + interval * 1000` — the omitted `interval`
option resolves to `defaultPollInterval = 50` seconds, every request of a
whole run is at or after the end of the first full sleep, and a
`pollForAuthorization` caller passing no interval gets no status request
before 50 seconds have elapsed from invocation. -/
theorem c10_sleep_full_interval (cfg : PollConfig) (st : LoopState)
    (inp : IterInput) (env : List IterInput) :
    ((pollStep cfg st inp).state).requests =
      st.requests ++ [st.now + st.interval * 1000] ∧
    resolvedInterval none = 50 ∧
    (∀ t, t ∈ ((pollLoop cfg st env).state).requests →
      t ∈ st.requests ∨ st.now + st.interval * 1000 ≤ t) ∧
    (∀ (s : Nat) (tmo : Option Nat) (hp he : Bool)
        (env2 : List IterInput) (t : Nat),
      t ∈ ((pollForAuthorization s none tmo hp he env2).state).requests →
      s + 50 * 1000 ≤ t) := by
  refine ⟨(pollStep_state_fields cfg st inp).2.1, rfl,
    fun t ht => pollLoop_requests_lb cfg env st t ht, ?_⟩
  intro s tmo hp he env2 t ht
  have ht2 : t ∈ ((pollLoop ⟨s + resolvedTimeout tmo * 1000, hp, he⟩
      ⟨s, 50, [], [], none, false⟩ env2).state).requests := ht
  have h := pollLoop_requests_lb
    ⟨s + resolvedTimeout tmo * 1000, hp, he⟩ env2
    ⟨s, 50, [], [], none, false⟩ t ht2
  rcases h with h | h
  · exact absurd h (List.not_mem_nil t)
  · exact h

/-- C10 witness: a default-interval run whose single request is issued at
exactly t = 50 s, not before. -/
theorem c10_sleep_full_interval_witness :
    ((pollStep ⟨300000, false, false⟩ ⟨0, 50, [], [], none, false⟩
      ⟨.ok "tok", 0⟩).state).requests = [50000] ∧
    resolvedInterval none = 50 ∧
    (50000 ∈ ([] : List Nat) ∨ 0 + 50 * 1000 ≤ 50000) ∧
    0 + 50 * 1000 ≤ 50000 := by
  have h := c10_sleep_full_interval ⟨300000, false, false⟩
    ⟨0, 50, [], [], none, false⟩ ⟨.ok "tok", 0⟩ [⟨.ok "tok", 0⟩]
  refine ⟨?_, h.2.1, ?_, ?_⟩
  · simpa using h.1
  · exact h.2.2.1 50000 (by decide)
  · exact h.2.2.2 0 none false false [⟨.ok "tok", 0⟩] 50000 (by decide)
